import Mathlib

/-!
Shallow embedding of the HGroup authentication core and the related
front-end pages.

The back-end classes under `doc/` (`User`, `Token`, `TokenService`,
`AuthService`, `PasswordService`) are interface sketches: where a method
body exists in the source (`TokenService.verifyToken`,
`AuthService.generateAccessToken`) the definition below mirrors it; where
only the stub signature exists, the definition is modelled from the spec
and marked as such in its doc comment.  The front-end pages
(`Login.tsx`, `ForgotPassword.tsx`, `ResetPassword.tsx`, `App.tsx`) are
embedded from their actual code.
-/

deriving instance DecidableEq for Except

namespace HG

/-- Error taxonomy of the authentication core (spec section 7). -/
inductive AuthError where
  | invalidCredentials
  | accountLocked
  | accountInactive
  | invalidToken
  | expiredToken
  | tokenNotFound
  | tokenRevoked
  | tokenExpired
  | tokenAlreadyUsed
  deriving DecidableEq, Repr

/-- Revocation reasons for refresh tokens (spec section 3). -/
inductive RevokeReason where
  | expired
  | rotated
  | logout
  | explicitRevoke
  deriving DecidableEq, Repr

/-- Configuration supplied at process start (spec section 6): lockout
threshold and window, token lifetimes, signing key. -/
structure AuthConfig where
  maxFailedAttempts : Nat
  lockoutWindow : Nat
  jwtSecret : Nat
  jwtExpiration : Nat
  refreshExpiration : Nat
  resetExpiration : Nat
  deriving Repr

/-- Defaults named by the spec: 5 attempts, 15-minute window (in ms). -/
def defaultConfig : AuthConfig :=
  { maxFailedAttempts := 5
    lockoutWindow := 15 * 60 * 1000
    jwtSecret := 1234
    jwtExpiration := 15 * 60 * 1000
    refreshExpiration := 7 * 24 * 60 * 60 * 1000
    resetExpiration := 30 * 60 * 1000 }

/-- The `User` entity, with the exact fields of the `User.model.js`
constructor. `password` stores the password hash. -/
structure User where
  id : Nat
  uuid : String
  name : String
  email : String
  password : String
  role_id : Nat
  is_active : Bool
  created_at : Nat
  updated_at : Nat
  last_login : Option Nat
  failed_login_attempts : Nat
  last_failed_login : Option Nat
  deriving DecidableEq, Repr

/-- Modelled from the spec: the external one-way password-hash
collaborator ("password hashing primitive (assumed available as a
one-way hash + constant-time compare function)"). -/
def hashPassword (p : String) : String := "hashed:" ++ p

/-- Modelled from the spec: the constant-time hash comparison of the
external hashing collaborator. -/
def compareHash (storedHash p : String) : Bool := storedHash == hashPassword p

/-! ### Token codec (`TokenService.js`, `AuthService.generateAccessToken`) -/

/-- The full JWT payload: the three fields the code puts in the payload
object plus the `iat`/`exp` registered claims the jwt library adds. -/
structure AccessTokenPayload where
  id : Nat
  email : String
  role : Nat
  iat : Nat
  exp : Nat
  deriving DecidableEq, Repr

/-- A signed token: payload plus signature over payload and secret. -/
structure SignedToken where
  payload : AccessTokenPayload
  sig : Nat
  deriving DecidableEq, Repr

/-- Executable stand-in hash of a string, used by the modelled signer. -/
def strHash (s : String) : Nat := s.toList.foldl (fun a c => a * 31 + c.toNat) 7

/-- Modelled signature function of the external jwt library. -/
def payloadSig (secret : Nat) (p : AccessTokenPayload) : Nat :=
  secret + p.id * 3 + p.role * 5 + p.iat * 7 + p.exp * 11 + strHash p.email

/-- The explicit payload object built in `generateAccessToken`:
`\x7b id, email, role \x7d`. -/
structure JwtClaims where
  id : Nat
  email : String
  role : Nat
  deriving DecidableEq, Repr

/-- Modelled from the external jwt library: `jwt.sign(payload, secret,
\x7b expiresIn \x7d)` signs the payload after adding the issued-at claim
(`iat` = now) and the expiry claim (`exp` = now + expiresIn). -/
def jwtSign (secret : Nat) (p : JwtClaims) (now expiresIn : Nat) : SignedToken :=
  let full : AccessTokenPayload :=
    { id := p.id, email := p.email, role := p.role, iat := now, exp := now + expiresIn }
  { payload := full, sig := payloadSig secret full }

/-- `AuthService.generateAccessToken(user)`: builds the payload
`\x7b id: user.id, email: user.email, role: user.role_id \x7d` and signs it
with `jwt.sign(payload, jwtSecret, \x7b expiresIn: jwtExpiration \x7d)`. -/
def generateAccessToken (cfg : AuthConfig) (user : User) (now : Nat) : SignedToken :=
  jwtSign cfg.jwtSecret { id := user.id, email := user.email, role := user.role_id }
    now cfg.jwtExpiration

/-- Outcome of the external `jwt.verify`: either the decoded payload or
a thrown error identified by its `name` property. -/
inductive JwtVerifyResult where
  | ok (payload : AccessTokenPayload)
  | err (name : String)
  deriving DecidableEq, Repr

/-- Modelled from the external jwt library: `jwt.verify` checks the
signature (failure: `JsonWebTokenError`) and then the expiry claim
(failure: `TokenExpiredError`). -/
def jwtVerify (secret : Nat) (t : SignedToken) (now : Nat) : JwtVerifyResult :=
  if t.sig == payloadSig secret t.payload then
    if now < t.payload.exp then .ok t.payload else .err "TokenExpiredError"
  else .err "JsonWebTokenError"

/-- A thrown JS error: its class name (the error kind) and its message. -/
structure ThrownError where
  kind : String
  message : String
  deriving DecidableEq, Repr

/-- `TokenService.verifyToken`: calls `jwt.verify`; on a caught error it
throws `UnauthorizedError('Token expirado')` when the caught error's
name is `TokenExpiredError`, otherwise `UnauthorizedError('Token
inválido')`. -/
def verifyToken (secret : Nat) (t : SignedToken) (now : Nat) :
    Except ThrownError AccessTokenPayload :=
  match jwtVerify secret t now with
  | .ok p => .ok p
  | .err name =>
      if name == "TokenExpiredError" then
        .error { kind := "UnauthorizedError", message := "Token expirado" }
      else
        .error { kind := "UnauthorizedError", message := "Token inválido" }

/-- The error kind of a failed verification, if it failed. -/
def errKind {α : Type} : Except ThrownError α → Option String
  | .error e => some e.kind
  | .ok _ => none

/-- The error message of a failed verification, if it failed. -/
def errMsg {α : Type} : Except ThrownError α → Option String
  | .error e => some e.message
  | .ok _ => none

/-! ### Refresh Token Ledger (`Token.model.js` stubs; spec section 4.3) -/

/-- A persisted refresh-token record (spec section 3): opaque value
(the natural key), owning account, timestamps, revoked flag, revocation
reason, successor link set on rotation, issuing ip. -/
structure RefreshTokenRec where
  value : Nat
  userId : Nat
  issuedAt : Nat
  expiresAt : Nat
  revoked : Bool
  reason : Option RevokeReason
  successor : Option Nat
  ip : String
  deriving DecidableEq, Repr

/-- The refresh-token store: its records plus the next fresh opaque
value (freshness counter of the modelled store). -/
structure RefreshLedger where
  tokens : List RefreshTokenRec
  nextValue : Nat
  deriving DecidableEq, Repr

/-- `Token.findRefreshToken(token)`: look a refresh token up by value. -/
def findRefreshToken (L : RefreshLedger) (v : Nat) : Option RefreshTokenRec :=
  L.tokens.find? (fun r => r.value == v)

/-- Mark one refresh token revoked with the given reason. -/
def markRevoked (L : RefreshLedger) (v : Nat) (why : RevokeReason) : RefreshLedger :=
  { L with tokens := L.tokens.map (fun r =>
      if r.value == v then { r with revoked := true, reason := some why } else r) }

/-- Modelled from the spec: the reuse-detection cascade of
`Token.revokeRefreshToken` — "revoke the entire remaining chain
reachable via successor links".  Walks successor links with explicit
fuel; `rotate` supplies fuel `L.nextValue`, which covers every chain of
a well-formed ledger. -/
def revokeChain : Nat → RefreshLedger → Nat → RefreshLedger
  | 0, L, _ => L
  | fuel + 1, L, v =>
      match findRefreshToken L v with
      | none => L
      | some r =>
          match r.successor with
          | none => markRevoked L v .explicitRevoke
          | some s => revokeChain fuel (markRevoked L v .explicitRevoke) s

/-- `Token.createRefreshToken` driven by the ledger's freshness counter:
insert a fresh, unrevoked token for the account. -/
def issueRefreshToken (cfg : AuthConfig) (L : RefreshLedger) (userId now : Nat)
    (ip : String) : RefreshTokenRec × RefreshLedger :=
  let freshRec : RefreshTokenRec :=
    { value := L.nextValue
      userId := userId
      issuedAt := now
      expiresAt := now + cfg.refreshExpiration
      revoked := false
      reason := none
      successor := none
      ip := ip }
  (freshRec, { tokens := L.tokens ++ [freshRec], nextValue := L.nextValue + 1 })

/-- Modelled from the spec: `rotate(presentedToken)` of the Refresh
Token Ledger (the `Token.revokeRefreshToken` /
`AuthService.refreshToken` bodies are absent).  Absent token:
TokenNotFound.  Found but revoked: reuse detection — revoke the whole
remaining chain via successor links and report TokenRevoked.  Found,
unrevoked but past expiry: TokenExpired.  Otherwise revoke the
presented token (reason rotated), link it to a fresh successor and
return the successor. -/
def rotate (cfg : AuthConfig) (L : RefreshLedger) (presented now : Nat) (ip : String) :
    Except AuthError RefreshTokenRec × RefreshLedger :=
  match findRefreshToken L presented with
  | none => (.error .tokenNotFound, L)
  | some r =>
      if r.revoked then
        (.error .tokenRevoked, revokeChain L.nextValue L presented)
      else if r.expiresAt ≤ now then
        (.error .tokenExpired, L)
      else
        let newRec : RefreshTokenRec :=
          { value := L.nextValue
            userId := r.userId
            issuedAt := now
            expiresAt := now + cfg.refreshExpiration
            revoked := false
            reason := none
            successor := none
            ip := ip }
        (.ok newRec,
          { tokens := (L.tokens.map (fun t =>
              if t.value == presented then
                { t with
                  revoked := true
                  reason := some RevokeReason.rotated
                  successor := some L.nextValue }
              else t)) ++ [newRec]
            nextValue := L.nextValue + 1 })

/-- `revokeAllForAccount` (spec section 4.3): revoke every refresh
token owned by the account (used by logout and password change). -/
def revokeAllForAccount (L : RefreshLedger) (userId : Nat) : RefreshLedger :=
  { L with tokens := L.tokens.map (fun r =>
      if r.userId == userId then
        { r with revoked := true, reason := some RevokeReason.explicitRevoke }
      else r) }

/-- Does a successor link stay strictly above its own value? -/
def succAbove (r : RefreshTokenRec) : Bool :=
  match r.successor with
  | none => true
  | some s => r.value < s

/-- Does a successor link point at an existing record? -/
def succStored (L : RefreshLedger) (r : RefreshTokenRec) : Bool :=
  match r.successor with
  | none => true
  | some s => (findRefreshToken L s).isSome

/-- Well-formedness of the refresh ledger: every stored value is below
the freshness counter, successor links increase strictly and point at
stored records.  Every ledger the core builds satisfies this. -/
def WFLedger (L : RefreshLedger) : Prop :=
  ∀ r ∈ L.tokens, r.value < L.nextValue ∧ succAbove r = true ∧ succStored L r = true

instance (L : RefreshLedger) : Decidable (WFLedger L) :=
  List.decidableBAll _ L.tokens

/-- The tokens reachable from `v` by following successor links,
starting at `v` itself. -/
inductive Reaches (L : RefreshLedger) : Nat → Nat → Prop
  | refl (v : Nat) : Reaches L v v
  | step {v s w : Nat} (r : RefreshTokenRec) :
      findRefreshToken L v = some r → r.successor = some s →
      Reaches L s w → Reaches L v w

/-! ### Password Reset Ledger (`Token.createPasswordResetToken` stub; spec 4.4) -/

/-- A persisted password-reset token record (spec section 3). -/
structure ResetTokenRec where
  value : Nat
  userId : Nat
  issuedAt : Nat
  expiresAt : Nat
  consumed : Bool
  ip : String
  deriving DecidableEq, Repr

/-- The reset-token store with its freshness counter. -/
structure ResetLedger where
  tokens : List ResetTokenRec
  nextValue : Nat
  deriving DecidableEq, Repr

/-- Look a reset token up by value. -/
def findResetToken (L : ResetLedger) (v : Nat) : Option ResetTokenRec :=
  L.tokens.find? (fun r => r.value == v)

/-- `Token.createPasswordResetToken` driven by the freshness counter. -/
def issueResetToken (cfg : AuthConfig) (L : ResetLedger) (userId now : Nat)
    (ip : String) : ResetTokenRec × ResetLedger :=
  let freshRec : ResetTokenRec :=
    { value := L.nextValue
      userId := userId
      issuedAt := now
      expiresAt := now + cfg.resetExpiration
      consumed := false
      ip := ip }
  (freshRec, { tokens := L.tokens ++ [freshRec], nextValue := L.nextValue + 1 })

/-- Modelled from the spec: `consume(token)` of the Password Reset
Ledger (no body in the source).  Absent: TokenNotFound; already
consumed: TokenAlreadyUsed; past expiry: TokenExpired; otherwise mark
consumed and return the record. -/
def consume (L : ResetLedger) (v now : Nat) : Except AuthError ResetTokenRec × ResetLedger :=
  match findResetToken L v with
  | none => (.error .tokenNotFound, L)
  | some r =>
      if r.consumed then (.error .tokenAlreadyUsed, L)
      else if r.expiresAt ≤ now then (.error .tokenExpired, L)
      else
        (.ok r, { L with tokens := L.tokens.map (fun t =>
            if t.value == v then { t with consumed := true } else t) })

/-- Modelled from the spec: invalidate every outstanding reset token of
an account (run by the Password Service right after a successful
consume or password change). -/
def invalidateAllResetFor (L : ResetLedger) (userId : Nat) : ResetLedger :=
  { L with tokens := L.tokens.map (fun r =>
      if r.userId == userId then { r with consumed := true } else r) }

/-! ### Lockout Policy and Auth Service (`AuthService.login`,
`User.incrementFailedAttempts`, `User.updateLoginInfo` stubs; spec 4.2, 4.5) -/

/-- Modelled from the spec: `checkAllowed(account)` of the Lockout
Policy — blocked exactly when the account has accumulated at least the
threshold of failures and the window measured from `last_failed_login`
has not yet elapsed. -/
def checkAllowed (cfg : AuthConfig) (u : User) (now : Nat) : Bool :=
  match u.last_failed_login with
  | none => true
  | some tf => !(decide (cfg.maxFailedAttempts ≤ u.failed_login_attempts) &&
                 decide (now < tf + cfg.lockoutWindow))

/-- Modelled from the spec: `recordFailure` /
`User.incrementFailedAttempts` — a failure after the window has elapsed
restarts the counter at 1, otherwise it increments; either way the
window marker moves to now. -/
def recordFailure (cfg : AuthConfig) (u : User) (now : Nat) : User :=
  let newCount :=
    match u.last_failed_login with
    | some tf => if tf + cfg.lockoutWindow ≤ now then 1 else u.failed_login_attempts + 1
    | none => u.failed_login_attempts + 1
  { u with
    failed_login_attempts := newCount
    last_failed_login := some now }

/-- Modelled from the spec: `recordSuccess` / `User.updateLoginInfo` —
a successful login zeroes the failure counter, clears the window marker
and stamps `last_login`. -/
def recordSuccess (u : User) (now : Nat) : User :=
  { u with
    failed_login_attempts := 0
    last_failed_login := none
    last_login := some now }

/-- Modelled from the spec: the per-account steps of
`AuthService.login` once the account record is at hand, in the
spec-mandated order — inactive check, lockout check (before any
password comparison), constant-time password comparison recording
failure or success.  Returns the error (none on success) and the
updated account record. -/
def loginStep (cfg : AuthConfig) (u : User) (password : String) (now : Nat) :
    Option AuthError × User :=
  if !u.is_active then (some .accountInactive, u)
  else if !checkAllowed cfg u now then (some .accountLocked, u)
  else if !compareHash u.password password then
    (some .invalidCredentials, recordFailure cfg u now)
  else (none, recordSuccess u now)

/-- A run of consecutive failed login attempts at the given times,
each with the supplied (wrong) password, threading the account
record. -/
def runFailedLogins (cfg : AuthConfig) (pwd : String) (u : User) (ts : List Nat) : User :=
  ts.foldl (fun v t => (loginStep cfg v pwd t).2) u

/-- Are the attempt times consecutive within the lockout window: each
time lies inside the window anchored at the previous failure (the
anchor starts as the account's `last_failed_login`)? -/
def chainedFrom (W : Nat) : Option Nat → List Nat → Bool
  | _, [] => true
  | anchor, t :: ts =>
      (match anchor with
       | none => true
       | some a => a ≤ t && t < a + W) && chainedFrom W (some t) ts

/-- The users table of the credential store. -/
def findByEmail (users : List User) (email : String) : Option User :=
  users.find? (fun u => u.email == email)

/-- `User.findById`. -/
def findById (users : List User) (id : Nat) : Option User :=
  users.find? (fun u => u.id == id)

/-- Replace an account record by id. -/
def updateUser (users : List User) (id : Nat) (f : User → User) : List User :=
  users.map (fun u => if u.id == id then f u else u)

/-- `User.updatePassword(id, hashedPassword, ip)`. -/
def updatePassword (users : List User) (id : Nat) (hashedPassword : String) : List User :=
  updateUser users id (fun u => { u with password := hashedPassword })

/-- The authoritative store: accounts plus both token ledgers. -/
structure AuthSys where
  users : List User
  refresh : RefreshLedger
  reset : ResetLedger
  deriving DecidableEq, Repr

/-- Modelled from the spec: `AuthService.login` — looks the account up
by email (absent: InvalidCredentials after a dummy hash comparison),
runs the per-account steps, and on success issues an access token and a
refresh token. -/
def login (cfg : AuthConfig) (sys : AuthSys) (email password : String) (now : Nat)
    (ip : String) : Except AuthError (SignedToken × RefreshTokenRec) × AuthSys :=
  match findByEmail sys.users email with
  | none => (.error .invalidCredentials, sys)
  | some u =>
      match loginStep cfg u password now with
      | (some e, u1) => (.error e, { sys with users := updateUser sys.users u.id (fun _ => u1) })
      | (none, u1) =>
          let (rt, refresh1) := issueRefreshToken cfg sys.refresh u.id now ip
          (.ok (generateAccessToken cfg u now, rt),
            { sys with
              users := updateUser sys.users u.id (fun _ => u1)
              refresh := refresh1 })

/-! ### Password Service (`PasswordService` stubs; spec section 4.6) -/

/-- The uniform caller-visible outcome of `requestReset`: the spec
mandates a single "if this address exists, a link was sent" outcome
whether or not the account exists. -/
inductive RequestResetOutcome where
  | accepted
  deriving DecidableEq, Repr

/-- An email handed to the external email collaborator. -/
structure ResetEmail where
  toAddr : String
  tokenValue : Nat
  deriving DecidableEq, Repr

/-- Modelled from the spec: `PasswordService.requestReset(email, ip)` —
always returns the uniform outcome; internally, when the account
exists, issues a reset token and hands it to the email collaborator. -/
def requestReset (cfg : AuthConfig) (sys : AuthSys) (email : String) (now : Nat)
    (ip : String) : RequestResetOutcome × AuthSys × List ResetEmail :=
  match findByEmail sys.users email with
  | none => (.accepted, sys, [])
  | some u =>
      let (rt, reset1) := issueResetToken cfg sys.reset u.id now ip
      (.accepted, { sys with reset := reset1 }, [{ toAddr := u.email, tokenValue := rt.value }])

/-- Modelled from the spec: `PasswordService.resetPassword(token,
newPassword, ip)` — consumes the token; on success hashes and stores
the new password, invalidates every outstanding reset token of the
account and revokes every refresh token of the account. -/
def resetPassword (sys : AuthSys) (tokenValue : Nat) (newPassword : String)
    (now : Nat) : Except AuthError Unit × AuthSys :=
  match consume sys.reset tokenValue now with
  | (.error e, reset1) => (.error e, { sys with reset := reset1 })
  | (.ok r, reset1) =>
      (.ok (),
        { users := updatePassword sys.users r.userId (hashPassword newPassword)
          refresh := revokeAllForAccount sys.refresh r.userId
          reset := invalidateAllResetFor reset1 r.userId })

/-- Modelled from the spec: `PasswordService.changePassword(userId,
currentPassword, newPassword)` — re-verifies the current password, then
applies the same update and invalidation side effects as a reset. -/
def changePassword (sys : AuthSys) (userId : Nat) (currentPassword newPassword : String) :
    Except AuthError Unit × AuthSys :=
  match findById sys.users userId with
  | none => (.error .invalidCredentials, sys)
  | some u =>
      if compareHash u.password currentPassword then
        (.ok (),
          { users := updatePassword sys.users userId (hashPassword newPassword)
            refresh := revokeAllForAccount sys.refresh userId
            reset := invalidateAllResetFor sys.reset userId })
      else (.error .invalidCredentials, sys)

/-! ### Front end: Login page (`Login.tsx`) -/

/-- The login form state (`LoginFormData`). -/
structure LoginFormData where
  email : String
  password : String
  deriving DecidableEq, Repr

/-- The ECMAScript `\s` character class: tab, line feed, vertical tab,
form feed, carriage return, space, no-break space, ogham space mark,
the en-quad..hair-space range, line and paragraph separators, narrow
no-break space, medium mathematical space, ideographic space and the
byte-order mark. -/
def jsWhitespace (c : Char) : Bool :=
  c.toNat == 0x09 || c.toNat == 0x0a || c.toNat == 0x0b || c.toNat == 0x0c ||
  c.toNat == 0x0d || c.toNat == 0x20 || c.toNat == 0xa0 || c.toNat == 0x1680 ||
  (0x2000 ≤ c.toNat && c.toNat ≤ 0x200a) || c.toNat == 0x2028 || c.toNat == 0x2029 ||
  c.toNat == 0x202f || c.toNat == 0x205f || c.toNat == 0x3000 || c.toNat == 0xfeff

/-- A character admitted by the bracket class `[^\s@]` of the email
pattern: everything except ECMAScript whitespace and the at sign. -/
def emailClassChar (c : Char) : Bool := !jsWhitespace c && c != '@'

/-- Are the characters strictly between the first and the last one? -/
def innerChars (l : List Char) : List Char := (l.drop 1).dropLast

/-- The test the Login page runs against the pattern
`/^[^\s@]+@[^\s@]+\.[^\s@]+$/`: one at sign splitting the string into a
nonempty local part of class characters and a domain of class
characters containing a dot with nonempty text on both sides. -/
def emailRegexTest (s : String) : Bool :=
  match s.splitOn "@" with
  | [localPart, domain] =>
      !localPart.isEmpty && localPart.toList.all emailClassChar &&
      !domain.isEmpty && domain.toList.all emailClassChar &&
      (innerChars domain.toList).contains '.'
  | _ => false

/-- `Login.validateForm`: empty email or password yields the
required-fields error; a pattern mismatch yields the invalid-email
error; otherwise the form is valid (no error). -/
def validateFormError (f : LoginFormData) : Option String :=
  if f.email.isEmpty || f.password.isEmpty then
    some "Email y contraseña son requeridos"
  else if !emailRegexTest f.email then
    some "Por favor ingresa un email válido"
  else none

/-- The browser storage slots the Login page writes on success. -/
structure BrowserStorage where
  token : Option String
  refreshToken : Option String
  userData : Option String
  deriving DecidableEq, Repr

/-- The response of the `/auth/login` endpoint as seen by the page. -/
structure LoginApiResponse where
  ok : Bool
  accessToken : String
  refreshTokenStr : String
  userJson : String
  errorMessage : String
  deriving DecidableEq, Repr

/-- What one run of `Login.handleLogin` did: whether a request reached
`/auth/login`, the error message state, and the storage contents. -/
structure HandleLoginResult where
  requestSent : Bool
  error : String
  storage : BrowserStorage
  deriving DecidableEq, Repr

/-- `Login.handleLogin`: validates the form first and returns without
fetching when validation fails; otherwise posts to `/auth/login` and on
an ok response stores the tokens and user data. -/
def handleLogin (f : LoginFormData) (st : BrowserStorage) (resp : LoginApiResponse) :
    HandleLoginResult :=
  match validateFormError f with
  | some e => { requestSent := false, error := e, storage := st }
  | none =>
      if resp.ok then
        { requestSent := true
          error := ""
          storage :=
            { token := some resp.accessToken
              refreshToken := some resp.refreshTokenStr
              userData := some resp.userJson } }
      else
        { requestSent := true, error := resp.errorMessage, storage := st }

/-! ### Front end: ForgotPassword page (`ForgotPassword.tsx`) -/

/-- `ForgotPassword.onSubmit` message selection: an ok response shows
the sent-link message, a non-ok response shows the generic
if-this-account-exists message. -/
def forgotPasswordMessage (responseOk : Bool) : String :=
  if responseOk then
    "Se ha enviado un enlace de recuperación a tu correo electrónico. Revisa tu bandeja de entrada y la carpeta de spam."
  else
    "Si existe una cuenta con ese correo, recibirás un enlace para restablecer tu contraseña."

/-- Modelled from the spec: the transport layer maps the uniform
`requestReset` outcome to an ok HTTP response. -/
def requestResetHttpOk : RequestResetOutcome → Bool
  | .accepted => true

/-! ### Front end: router and ResetPassword page (`App.tsx`,
`ResetPassword.tsx`) -/

/-- The `App.tsx` route `/reset-password/:token`: matches a path of the
two segments `reset-password` and the token path parameter, which it
yields. -/
def resetRouteToken : List String → Option String
  | ["reset-password", t] => some t
  | _ => none

/-- A URL as the page sees it: path segments plus query parameters. -/
structure PageUrl where
  pathSegments : List String
  query : List (String × String)
  deriving DecidableEq, Repr

/-- `searchParams.get(name)`: the first value of the named query
parameter, if present. -/
def searchParamsGet (query : List (String × String)) (name : String) : Option String :=
  (query.find? (fun p => p.1 == name)).map (fun p => p.2)

/-- The API requests the ResetPassword page can issue. -/
inductive ResetApiRequest where
  | validateToken (token : String)
  | reset (token : String) (newPassword : String)
  deriving DecidableEq, Repr

/-- What mounting the ResetPassword page did: the error state, the
requests issued, and whether the form is rendered (the form renders
only with no error and no success, so no reset request can follow an
error). -/
structure ResetMountEffect where
  error : Option String
  requests : List ResetApiRequest
  formRendered : Bool
  deriving DecidableEq, Repr

/-- The mount effect of `ResetPassword`: the `useEffect` reads the
token only from the query string; with no `token` query parameter it
sets the missing-token error and returns before `validateToken`, and
the error suppresses the form. -/
def resetPasswordMount (url : PageUrl) : ResetMountEffect :=
  match searchParamsGet url.query "token" with
  | none =>
      { error := some "Enlace inválido: falta el token de verificación"
        requests := []
        formRendered := false }
  | some t =>
      { error := none
        requests := [.validateToken t]
        formRendered := true }

/-! ### Concrete fixtures used by witnesses -/

/-- A concrete account record used by witnesses. -/
def sampleUser (failed : Nat) (lastFailed : Option Nat) : User :=
  { id := 1
    uuid := "u-1"
    name := "n"
    email := "a@b.c"
    password := hashPassword "pw"
    role_id := 3
    is_active := true
    created_at := 0
    updated_at := 0
    last_login := none
    failed_login_attempts := failed
    last_failed_login := lastFailed }

/-- A concrete one-account store with empty ledgers. -/
def sampleSys : AuthSys :=
  { users := [sampleUser 0 none]
    refresh := { tokens := [], nextValue := 0 }
    reset := { tokens := [], nextValue := 0 } }

/-- A concrete access-token payload. -/
def samplePayload : AccessTokenPayload :=
  { id := 1, email := "a@b.c", role := 2, iat := 0, exp := 10 }

/-- A correctly signed but expired concrete token. -/
def sampleExpiredToken : SignedToken :=
  { payload := samplePayload, sig := payloadSig 0 samplePayload }

/-- A concrete token with a broken signature. -/
def sampleBadSigToken : SignedToken :=
  { payload := samplePayload, sig := payloadSig 0 samplePayload + 1 }

/-- A revoked chain head linked to a live successor. -/
def chainHead : RefreshTokenRec :=
  { value := 0
    userId := 1
    issuedAt := 0
    expiresAt := 1000
    revoked := true
    reason := some RevokeReason.rotated
    successor := some 1
    ip := "i" }

/-- The live successor token of `chainHead`. -/
def chainTail : RefreshTokenRec :=
  { value := 1
    userId := 1
    issuedAt := 10
    expiresAt := 1000
    revoked := false
    reason := none
    successor := none
    ip := "i" }

/-- A two-token ledger holding one rotation chain. -/
def chainLedger : RefreshLedger :=
  { tokens := [chainHead, chainTail], nextValue := 2 }

/-- A live refresh token owned by account 1. -/
def refreshFixtureToken : RefreshTokenRec :=
  { value := 0
    userId := 1
    issuedAt := 0
    expiresAt := 1000
    revoked := false
    reason := none
    successor := none
    ip := "i" }

/-- An unconsumed, unexpired reset token owned by account 1. -/
def resetFixtureToken : ResetTokenRec :=
  { value := 0
    userId := 1
    issuedAt := 0
    expiresAt := 1000
    consumed := false
    ip := "i" }

/-- A one-account system with one live refresh token and one pending
reset token. -/
def c7Sys : AuthSys :=
  { users := [sampleUser 0 none]
    refresh := { tokens := [refreshFixtureToken], nextValue := 1 }
    reset := { tokens := [resetFixtureToken], nextValue := 1 } }

/-! ## Theorems -/

/-- C2 counterexample: a token failing only on expiry and a token
failing the signature check produce errors of the same kind
(`UnauthorizedError`), so the two failures are not distinguishable in
the error kind, contrary to the claim. -/
theorem c2_counterexample :
    jwtVerify 0 sampleExpiredToken 10 = JwtVerifyResult.err "TokenExpiredError" ∧
    jwtVerify 0 sampleBadSigToken 0 = JwtVerifyResult.err "JsonWebTokenError" ∧
    errKind (verifyToken 0 sampleExpiredToken 10) = errKind (verifyToken 0 sampleBadSigToken 0) ∧
    errMsg (verifyToken 0 sampleExpiredToken 10) = some "Token expirado" ∧
    errMsg (verifyToken 0 sampleBadSigToken 0) = some "Token inválido" := by
  decide

/-- C2 (amended): every verification failure carries the single error
kind `UnauthorizedError`; an expiry failure and a signature failure are
distinguishable only by the message string, which is `Token expirado`
exactly when the underlying jwt error was `TokenExpiredError` and
`Token inválido` otherwise. -/
theorem c2_theorem (secret : Nat) (t : SignedToken) (now : Nat) (e : ThrownError)
    (h : verifyToken secret t now = .error e) :
    e.kind = "UnauthorizedError" ∧
    (e.message = "Token expirado" ∨ e.message = "Token inválido") ∧
    (e.message = "Token expirado" ↔ jwtVerify secret t now = .err "TokenExpiredError") := by
  unfold verifyToken at h
  cases hv : jwtVerify secret t now with
  | ok p => rw [hv] at h; cases h
  | err name =>
      rw [hv] at h
      by_cases hn : name = "TokenExpiredError"
      · subst hn
        simp only [beq_self_eq_true, if_true] at h
        simp only [Except.error.injEq] at h
        subst h
        exact ⟨rfl, Or.inl rfl, by simp⟩
      · have hb : (name == "TokenExpiredError") = false := by simpa using hn
        simp only [hb, Bool.false_eq_true, if_false] at h
        simp only [Except.error.injEq] at h
        subst h
        refine ⟨rfl, Or.inr rfl, ?_⟩
        constructor
        · intro hmsg; exact absurd hmsg (by decide)
        · intro hj
          injection hj with hname
          exact absurd hname hn

/-- C2 witness: the amended statement instantiated at a concrete
expired token. -/
theorem c2_witness :
    ({ kind := "UnauthorizedError", message := "Token expirado" } : ThrownError).kind
        = "UnauthorizedError" ∧
    (({ kind := "UnauthorizedError", message := "Token expirado" } : ThrownError).message
        = "Token expirado" ∨
     ({ kind := "UnauthorizedError", message := "Token expirado" } : ThrownError).message
        = "Token inválido") ∧
    (({ kind := "UnauthorizedError", message := "Token expirado" } : ThrownError).message
        = "Token expirado" ↔
      jwtVerify 0 sampleExpiredToken 10 = JwtVerifyResult.err "TokenExpiredError") :=
  c2_theorem 0 sampleExpiredToken 10
    { kind := "UnauthorizedError", message := "Token expirado" } (by decide)

/-- C4: whenever a login attempt succeeds, the resulting account
record has a zero failed-login counter and a cleared lockout-window
marker, for every account, password and time. -/
theorem c4_theorem (cfg : AuthConfig) (u : User) (pwd : String) (now : Nat)
    (h : (loginStep cfg u pwd now).1 = none) :
    (loginStep cfg u pwd now).2.failed_login_attempts = 0 ∧
    (loginStep cfg u pwd now).2.last_failed_login = none := by
  unfold loginStep at h ⊢
  split at h
  · simp at h
  · split at h
    · simp at h
    · split at h
      · simp at h
      · simp_all [recordSuccess]

/-- C4 witness: a concrete successful login resets the counter and the
window marker. -/
theorem c4_witness :
    (loginStep defaultConfig (sampleUser 3 (some 2)) "pw" 5).2.failed_login_attempts = 0 ∧
    (loginStep defaultConfig (sampleUser 3 (some 2)) "pw" 5).2.last_failed_login = none :=
  c4_theorem defaultConfig (sampleUser 3 (some 2)) "pw" 5 (by decide)

/-- C5: a reset request for an email that matches an account and one
for an email that matches none return the same caller-visible outcome,
and the ForgotPassword page shows the same user-visible message for
both, so account existence cannot be inferred from the response. -/
theorem c5_theorem (cfg : AuthConfig) (sys : AuthSys) (e1 e2 : String) (now : Nat)
    (ip : String)
    (h1 : (findByEmail sys.users e1).isSome = true)
    (h2 : findByEmail sys.users e2 = none) :
    (requestReset cfg sys e1 now ip).1 = (requestReset cfg sys e2 now ip).1 ∧
    forgotPasswordMessage (requestResetHttpOk (requestReset cfg sys e1 now ip).1) =
      forgotPasswordMessage (requestResetHttpOk (requestReset cfg sys e2 now ip).1) := by
  have huniform : ∀ o : RequestResetOutcome, o = RequestResetOutcome.accepted := by
    intro o; cases o; rfl
  have k : (requestReset cfg sys e1 now ip).1 = (requestReset cfg sys e2 now ip).1 :=
    (huniform _).trans (huniform _).symm
  exact ⟨k, by rw [k]⟩

/-- C5 witness: a concrete one-account store queried with the stored
email and with an unknown email. -/
theorem c5_witness :
    (requestReset defaultConfig sampleSys "a@b.c" 5 "ip").1 =
      (requestReset defaultConfig sampleSys "z@b.c" 5 "ip").1 ∧
    forgotPasswordMessage (requestResetHttpOk (requestReset defaultConfig sampleSys "a@b.c" 5 "ip").1) =
      forgotPasswordMessage (requestResetHttpOk (requestReset defaultConfig sampleSys "z@b.c" 5 "ip").1) :=
  c5_theorem defaultConfig sampleSys "a@b.c" "z@b.c" 5 "ip" (by decide) (by decide)

/-- C6: the issued access token's payload is exactly the account id,
email, role, issued-at and expiry, and the token does not depend on the
account's password hash (or any other field outside those three). -/
theorem c6_theorem (cfg : AuthConfig) (u : User) (now : Nat) :
    (generateAccessToken cfg u now).payload =
      { id := u.id, email := u.email, role := u.role_id, iat := now,
        exp := now + cfg.jwtExpiration } ∧
    ∀ (p uu nm : String) (ca ua fa : Nat) (la lf : Option Nat) (act : Bool),
      generateAccessToken cfg
        { id := u.id
          uuid := uu
          name := nm
          email := u.email
          password := p
          role_id := u.role_id
          is_active := act
          created_at := ca
          updated_at := ua
          last_login := la
          failed_login_attempts := fa
          last_failed_login := lf } now =
      generateAccessToken cfg u now := by
  exact ⟨rfl, fun p uu nm ca ua fa la lf act => rfl⟩

/-- C9: any Login form submission with an empty email, an empty
password, or an email failing the pattern test sends no request to
`/auth/login`, sets one of the two validation error messages, and
leaves the stored token, refreshToken and userData unchanged. -/
theorem c9_theorem (f : LoginFormData) (st : BrowserStorage) (resp : LoginApiResponse)
    (h : f.email = "" ∨ f.password = "" ∨ emailRegexTest f.email = false) :
    (handleLogin f st resp).requestSent = false ∧
    ((handleLogin f st resp).error = "Email y contraseña son requeridos" ∨
     (handleLogin f st resp).error = "Por favor ingresa un email válido") ∧
    (handleLogin f st resp).storage = st := by
  have hv : validateFormError f = some "Email y contraseña son requeridos" ∨
      validateFormError f = some "Por favor ingresa un email válido" := by
    unfold validateFormError
    rcases h with h | h | h
    · have hb : (f.email.isEmpty || f.password.isEmpty) = true := by
        rw [h]; cases f.password.isEmpty <;> rfl
      left; simp [hb]
    · have hb : (f.email.isEmpty || f.password.isEmpty) = true := by
        rw [h]; cases f.email.isEmpty <;> rfl
      left; simp [hb]
    · by_cases hp : (f.email.isEmpty || f.password.isEmpty) = true
      · left; simp [hp]
      · have hp2 : (f.email.isEmpty || f.password.isEmpty) = false := by
          simpa using hp
        right; simp [hp2, h]
  rcases hv with hv | hv <;> simp [handleLogin, hv]

/-- C9 witness: an empty-email submission is blocked locally with the
storage untouched. -/
theorem c9_witness :
    (handleLogin { email := "", password := "x" }
        { token := some "t", refreshToken := some "r", userData := some "u" }
        { ok := true, accessToken := "a", refreshTokenStr := "b", userJson := "c",
          errorMessage := "e" }).requestSent = false ∧
    ((handleLogin { email := "", password := "x" }
        { token := some "t", refreshToken := some "r", userData := some "u" }
        { ok := true, accessToken := "a", refreshTokenStr := "b", userJson := "c",
          errorMessage := "e" }).error = "Email y contraseña son requeridos" ∨
     (handleLogin { email := "", password := "x" }
        { token := some "t", refreshToken := some "r", userData := some "u" }
        { ok := true, accessToken := "a", refreshTokenStr := "b", userJson := "c",
          errorMessage := "e" }).error = "Por favor ingresa un email válido") ∧
    (handleLogin { email := "", password := "x" }
        { token := some "t", refreshToken := some "r", userData := some "u" }
        { ok := true, accessToken := "a", refreshTokenStr := "b", userJson := "c",
          errorMessage := "e" }).storage =
      { token := some "t", refreshToken := some "r", userData := some "u" } :=
  c9_theorem { email := "", password := "x" }
    { token := some "t", refreshToken := some "r", userData := some "u" }
    { ok := true, accessToken := "a", refreshTokenStr := "b", userJson := "c",
      errorMessage := "e" } (Or.inl rfl)

/-- C10: for every URL matched by the `/reset-password/:token` route
(token in the path) whose query string carries no `token` parameter,
mounting the ResetPassword page sets the missing-token error, issues no
validate-token request, and renders no form (so no reset request can be
sent either). -/
theorem c10_theorem (url : PageUrl) (tok : String)
    (hroute : resetRouteToken url.pathSegments = some tok)
    (hq : searchParamsGet url.query "token" = none) :
    (resetPasswordMount url).error = some "Enlace inválido: falta el token de verificación" ∧
    (resetPasswordMount url).requests = [] ∧
    (resetPasswordMount url).formRendered = false := by
  simp [resetPasswordMount, hq]

/-- C10 witness: the routed URL `/reset-password/abc123` with an empty
query string. -/
theorem c10_witness :
    (resetPasswordMount { pathSegments := ["reset-password", "abc123"], query := [] }).error
      = some "Enlace inválido: falta el token de verificación" ∧
    (resetPasswordMount { pathSegments := ["reset-password", "abc123"], query := [] }).requests
      = [] ∧
    (resetPasswordMount { pathSegments := ["reset-password", "abc123"], query := [] }).formRendered
      = false :=
  c10_theorem { pathSegments := ["reset-password", "abc123"], query := [] } "abc123"
    (by decide) (by decide)

/-- The last element of a cons, as an `Option.or`. -/
theorem list_getLast?_cons_or {α : Type} (t : α) (ts : List α) :
    (t :: ts).getLast? = ts.getLast?.or (some t) := by
  induction ts generalizing t with
  | nil => rfl
  | cons a l ih =>
      rw [List.getLast?_cons_cons, ih a]
      cases l.getLast? <;> rfl

/-- A run of consecutive failed logins, each within the window of the
previous failure and staying below the lockout threshold, adds its
length to the failure counter and moves the window marker to the last
attempt time. -/
theorem runFailedLogins_spec (cfg : AuthConfig) (pwd : String) (ts : List Nat) :
    ∀ u : User, u.is_active = true → compareHash u.password pwd = false →
      u.failed_login_attempts + ts.length ≤ cfg.maxFailedAttempts →
      chainedFrom cfg.lockoutWindow u.last_failed_login ts = true →
      runFailedLogins cfg pwd u ts =
        { u with
          failed_login_attempts := u.failed_login_attempts + ts.length
          last_failed_login := ts.getLast?.or u.last_failed_login } := by
  induction ts with
  | nil =>
      intro u _ _ _ _
      simp [runFailedLogins]
  | cons t ts ih =>
      intro u hact hpw hbound hchain
      have hbound2 : u.failed_login_attempts + 1 + ts.length ≤ cfg.maxFailedAttempts := by
        simp only [List.length_cons] at hbound
        omega
      have hlt : u.failed_login_attempts < cfg.maxFailedAttempts := by omega
      have hallowed : checkAllowed cfg u t = true := by
        unfold checkAllowed
        cases hl : u.last_failed_login with
        | none => rfl
        | some a =>
            have hd : decide (cfg.maxFailedAttempts ≤ u.failed_login_attempts) = false :=
              decide_eq_false (Nat.not_le.mpr hlt)
            simp [hd]
      have hchain2 : chainedFrom cfg.lockoutWindow (some t) ts = true := by
        cases hl : u.last_failed_login with
        | none =>
            rw [hl] at hchain
            simpa only [chainedFrom, Bool.true_and] using hchain
        | some a =>
            rw [hl] at hchain
            simp only [chainedFrom, Bool.and_eq_true] at hchain
            exact hchain.2
      have hrf : recordFailure cfg u t =
          { u with
            failed_login_attempts := u.failed_login_attempts + 1
            last_failed_login := some t } := by
        unfold recordFailure
        cases hl : u.last_failed_login with
        | none => rfl
        | some a =>
            rw [hl] at hchain
            simp only [chainedFrom, Bool.and_eq_true, decide_eq_true_eq] at hchain
            have hnr : ¬(a + cfg.lockoutWindow ≤ t) := by
              have := hchain.1.2
              omega
            simp [hnr]
      have hstep : (loginStep cfg u pwd t).2 =
          { u with
            failed_login_attempts := u.failed_login_attempts + 1
            last_failed_login := some t } := by
        unfold loginStep
        have h1 : (!u.is_active) = false := by rw [hact]; rfl
        have h2 : (!checkAllowed cfg u t) = false := by rw [hallowed]; rfl
        have h3 : (!compareHash u.password pwd) = true := by rw [hpw]; rfl
        rw [h1, h2, h3]
        simpa using hrf
      have hrun : runFailedLogins cfg pwd u (t :: ts) =
          runFailedLogins cfg pwd
            { u with
              failed_login_attempts := u.failed_login_attempts + 1
              last_failed_login := some t } ts := by
        unfold runFailedLogins
        rw [List.foldl_cons, hstep]
      rw [hrun]
      rw [ih { u with
          failed_login_attempts := u.failed_login_attempts + 1
          last_failed_login := some t } hact hpw hbound2 hchain2]
      rw [list_getLast?_cons_or]
      cases ts.getLast? with
      | none => simp [List.length_cons, Option.or]; omega
      | some tl => simp [List.length_cons, Option.or]; omega

/-- A login attempt while the account is at or above the failure
threshold with an unexpired window marker is rejected as AccountLocked
before any password comparison. -/
theorem loginStep_locked (cfg : AuthConfig) (u : User) (pwd : String) (now : Nat)
    (hact : u.is_active = true)
    (hfail : cfg.maxFailedAttempts ≤ u.failed_login_attempts)
    (tf : Nat) (hlf : u.last_failed_login = some tf)
    (hwin : now < tf + cfg.lockoutWindow) :
    loginStep cfg u pwd now = (some AuthError.accountLocked, u) := by
  have hca : checkAllowed cfg u now = false := by
    unfold checkAllowed
    rw [hlf]
    simp [hfail, hwin]
  unfold loginStep
  have h1 : (!u.is_active) = false := by rw [hact]; rfl
  have h2 : (!checkAllowed cfg u now) = true := by rw [hca]; rfl
  rw [h1, h2]
  simp

/-- C3: starting from a clean account, after exactly N consecutive
failed logins (N the configured threshold, default 5), each inside the
lockout window of the previous failure, any further attempt made before
the full window has elapsed since the last failure fails with
AccountLocked even with the correct password. -/
theorem c3_theorem (cfg : AuthConfig) (u : User) (wrongPwd correctPwd : String)
    (ts : List Nat) (tN now : Nat)
    (hact : u.is_active = true)
    (h0 : u.failed_login_attempts = 0)
    (hl0 : u.last_failed_login = none)
    (hwrong : compareHash u.password wrongPwd = false)
    (hcorrect : compareHash u.password correctPwd = true)
    (hlen : ts.length = cfg.maxFailedAttempts)
    (hchain : chainedFrom cfg.lockoutWindow u.last_failed_login ts = true)
    (hlast : ts.getLast? = some tN)
    (hnow : now < tN + cfg.lockoutWindow) :
    (loginStep cfg (runFailedLogins cfg wrongPwd u ts) correctPwd now).1
      = some AuthError.accountLocked := by
  have hrun := runFailedLogins_spec cfg wrongPwd ts u hact hwrong
    (by rw [h0, hlen]; omega) hchain
  rw [hrun]
  rw [loginStep_locked cfg
    { u with
      failed_login_attempts := u.failed_login_attempts + ts.length
      last_failed_login := ts.getLast?.or u.last_failed_login }
    correctPwd now hact
    (show cfg.maxFailedAttempts ≤ u.failed_login_attempts + ts.length by
      rw [h0, hlen]
      omega)
    tN
    (show ts.getLast?.or u.last_failed_login = some tN by rw [hlast, hl0]; rfl)
    hnow]

/-- C3 witness: the default config (threshold 5, 15-minute window),
five failed attempts at times 0..4, then a correct-password attempt at
time 10. -/
theorem c3_witness :
    (loginStep defaultConfig
        (runFailedLogins defaultConfig "bad" (sampleUser 0 none) [0, 1, 2, 3, 4])
        "pw" 10).1 = some AuthError.accountLocked :=
  c3_theorem defaultConfig (sampleUser 0 none) "bad" "pw" [0, 1, 2, 3, 4] 4 10
    (by decide) (by decide) (by decide) (by decide) (by decide) (by decide)
    (by decide) (by decide) (by decide)

/-- A successful ledger lookup returns a record carrying the looked-up
value. -/
theorem findRefreshToken_value {L : RefreshLedger} {v : Nat} {r : RefreshTokenRec}
    (h : findRefreshToken L v = some r) : r.value = v := by
  have := List.find?_some (show L.tokens.find? (fun rr => rr.value == v) = some r from h)
  simpa using this

/-- A successful ledger lookup returns a stored record. -/
theorem findRefreshToken_mem {L : RefreshLedger} {v : Nat} {r : RefreshTokenRec}
    (h : findRefreshToken L v = some r) : r ∈ L.tokens :=
  List.mem_of_find?_eq_some
    (show L.tokens.find? (fun rr => rr.value == v) = some r from h)

/-- Mapping a value-preserving function over the store commutes with
lookup by value. -/
theorem find?_value_map (l : List RefreshTokenRec) (g : RefreshTokenRec → RefreshTokenRec)
    (hg : ∀ r, (g r).value = r.value) (v : Nat) :
    (l.map g).find? (fun r => r.value == v) = (l.find? (fun r => r.value == v)).map g := by
  induction l with
  | nil => rfl
  | cons a t ih =>
      by_cases h : (a.value == v) = true
      · have hga : ((g a).value == v) = true := by rw [hg a]; exact h
        simp [List.find?_cons, h, hga]
      · have hb : (a.value == v) = false := by simpa using h
        have hga : ((g a).value == v) = false := by rw [hg a]; exact hb
        simp [List.find?_cons, hb, hga, ih]

/-- Lookup in a ledger with one token marked revoked. -/
theorem find_markRevoked (L : RefreshLedger) (v : Nat) (why : RevokeReason) (x : Nat) :
    findRefreshToken (markRevoked L v why) x =
      (findRefreshToken L x).map (fun r =>
        if r.value == v then { r with revoked := true, reason := some why } else r) := by
  unfold findRefreshToken markRevoked
  exact find?_value_map L.tokens _
    (fun r => by by_cases h : (r.value == v) = true <;> simp [h]) x

/-- Marking a token revoked preserves successor reachability. -/
theorem reaches_markRevoked {L : RefreshLedger} {s w : Nat} (v : Nat) (why : RevokeReason)
    (h : Reaches L s w) : Reaches (markRevoked L v why) s w := by
  induction h with
  | refl x => exact Reaches.refl x
  | step r hf hs hr ih =>
      refine Reaches.step
        (if r.value == v then { r with revoked := true, reason := some why } else r)
        ?_ ?_ ih
      · rw [find_markRevoked, hf]
        rfl
      · by_cases hc : (r.value == v) = true <;> simp [hc, hs]

/-- Once every record stored under `w` is revoked, it stays revoked
through any chain revocation. -/
theorem revokeChain_keeps_revoked : ∀ (fuel : Nat) (L : RefreshLedger) (v w : Nat),
    (∀ r, findRefreshToken L w = some r → r.revoked = true) →
    ∀ r', findRefreshToken (revokeChain fuel L v) w = some r' → r'.revoked = true := by
  intro fuel
  induction fuel with
  | zero => intro L v w h r' hf; exact h r' hf
  | succ n ih =>
      intro L v w h r' hf
      have hmark : ∀ why, ∀ rr, findRefreshToken (markRevoked L v why) w = some rr →
          rr.revoked = true := by
        intro why rr hrr
        rw [find_markRevoked] at hrr
        cases hlw : findRefreshToken L w with
        | none => rw [hlw] at hrr; cases hrr
        | some r0 =>
            rw [hlw] at hrr
            simp only [Option.map_some', Option.some.injEq] at hrr
            have h0 := h r0 hlw
            rw [← hrr]
            by_cases hc : (r0.value == v) = true <;> simp [hc, h0]
      cases hfv : findRefreshToken L v with
      | none =>
          simp only [revokeChain, hfv] at hf
          exact h r' hf
      | some r =>
          cases hsucc : r.successor with
          | none =>
              simp only [revokeChain, hfv, hsucc] at hf
              exact hmark _ r' hf
          | some s2 =>
              simp only [revokeChain, hfv, hsucc] at hf
              exact ih (markRevoked L v .explicitRevoke) s2 w (hmark _) r' hf

/-- Marking a token revoked preserves ledger well-formedness. -/
theorem wf_markRevoked {L : RefreshLedger} (hWF : WFLedger L) (v : Nat) (why : RevokeReason) :
    WFLedger (markRevoked L v why) := by
  intro r hr
  obtain ⟨r0, hr0, heq⟩ := List.mem_map.mp hr
  obtain ⟨h1, h2, h3⟩ := hWF r0 hr0
  subst heq
  refine ⟨?_, ?_, ?_⟩
  · by_cases hc : (r0.value == v) = true <;> simp [hc] <;> exact h1
  · by_cases hc : (r0.value == v) = true <;> simp [hc] <;> exact h2
  · unfold succStored at h3 ⊢
    have hsucceq : (if (r0.value == v) = true then
        { r0 with revoked := true, reason := some why } else r0).successor
          = r0.successor := by
      by_cases hc : (r0.value == v) = true <;> simp [hc]
    rw [hsucceq]
    cases hsucc : r0.successor with
    | none => rfl
    | some s2 =>
        simp only [hsucc] at h3
        show (findRefreshToken (markRevoked L v why) s2).isSome = true
        rw [find_markRevoked]
        cases hlw : findRefreshToken L s2 with
        | none => rw [hlw] at h3; cases h3
        | some rr => rfl

/-- Every token reachable from a stored token is itself stored. -/
theorem reaches_stored {L : RefreshLedger} (hWF : WFLedger L) {v w : Nat}
    (h : Reaches L v w) (hv : (findRefreshToken L v).isSome = true) :
    (findRefreshToken L w).isSome = true := by
  induction h with
  | refl x => exact hv
  | step r hf hs hr ih =>
      apply ih
      have hmem := List.mem_of_find?_eq_some hf
      have h3 := (hWF r hmem).2.2
      unfold succStored at h3
      rw [hs] at h3
      exact h3

/-- Chain revocation stores no new tokens and deletes none. -/
theorem revokeChain_find_isSome : ∀ (fuel : Nat) (L : RefreshLedger) (v w : Nat),
    (findRefreshToken (revokeChain fuel L v) w).isSome
      = (findRefreshToken L w).isSome := by
  intro fuel
  induction fuel with
  | zero => intro L v w; rfl
  | succ n ih =>
      intro L v w
      cases hfv : findRefreshToken L v with
      | none => simp only [revokeChain, hfv]
      | some r =>
          cases hsucc : r.successor with
          | none =>
              simp only [revokeChain, hfv, hsucc]
              rw [find_markRevoked]
              cases findRefreshToken L w <;> rfl
          | some s2 =>
              simp only [revokeChain, hfv, hsucc]
              rw [ih (markRevoked L v RevokeReason.explicitRevoke) s2 w, find_markRevoked]
              cases findRefreshToken L w <;> rfl

/-- With enough fuel, chain revocation on a well-formed ledger revokes
every token reachable from the starting value. -/
theorem revokeChain_revokes : ∀ (fuel : Nat) (L : RefreshLedger) (v w : Nat),
    WFLedger L → Reaches L v w → L.nextValue ≤ fuel + v →
    ∀ r', findRefreshToken (revokeChain fuel L v) w = some r' → r'.revoked = true := by
  intro fuel
  induction fuel with
  | zero =>
      intro L v w hWF hreach hbound r' hf
      cases hreach with
      | refl =>
          have hfL : findRefreshToken L v = some r' := hf
          have hmem := findRefreshToken_mem hfL
          have hval := findRefreshToken_value hfL
          have h1 := (hWF r' hmem).1
          omega
      | step r hfv hsucc hreach2 =>
          have hmem := findRefreshToken_mem hfv
          have hval := findRefreshToken_value hfv
          have h1 := (hWF r hmem).1
          omega
  | succ n ih =>
      intro L v w hWF hreach hbound r' hf
      cases hreach with
      | refl =>
          cases hfv : findRefreshToken L v with
          | none =>
              simp only [revokeChain, hfv] at hf
              cases hf
          | some r =>
              have hval : (r.value == v) = true := by
                simp [findRefreshToken_value hfv]
              have hbase : ∀ rr, findRefreshToken (markRevoked L v RevokeReason.explicitRevoke) v
                  = some rr → rr.revoked = true := by
                intro rr hrr
                rw [find_markRevoked, hfv] at hrr
                simp only [Option.map_some', Option.some.injEq] at hrr
                rw [← hrr]
                simp [hval]
              cases hsucc : r.successor with
              | none =>
                  simp only [revokeChain, hfv, hsucc] at hf
                  exact hbase r' hf
              | some s2 =>
                  simp only [revokeChain, hfv, hsucc] at hf
                  exact revokeChain_keeps_revoked n
                    (markRevoked L v RevokeReason.explicitRevoke) s2 v hbase r' hf
      | step r hfv hsucc hreach2 =>
          rename_i s2
          simp only [revokeChain, hfv, hsucc] at hf
          have hval := findRefreshToken_value hfv
          have hmem := findRefreshToken_mem hfv
          obtain ⟨h1, h2, h3⟩ := hWF r hmem
          have hvs : r.value < s2 := by
            unfold succAbove at h2
            rw [hsucc] at h2
            simpa using h2
          refine ih (markRevoked L v RevokeReason.explicitRevoke) s2 w
            (wf_markRevoked hWF v _) (reaches_markRevoked v _ hreach2) ?_ r' hf
          show L.nextValue ≤ n + s2
          omega

/-- C1: presenting an already-revoked refresh token to rotate fails
with TokenRevoked and, as reuse detection, revokes every token
reachable from it via successor links, so presenting any token of that
chain afterwards is also rejected with TokenRevoked. -/
theorem c1_theorem (cfg : AuthConfig) (L : RefreshLedger) (t now : Nat) (ip : String)
    (r : RefreshTokenRec) (hWF : WFLedger L)
    (hfind : findRefreshToken L t = some r) (hrev : r.revoked = true) :
    (rotate cfg L t now ip).1 = Except.error AuthError.tokenRevoked ∧
    ∀ w, Reaches L t w →
      (∀ r', findRefreshToken (rotate cfg L t now ip).2 w = some r' → r'.revoked = true) ∧
      ∀ now' ip', (rotate cfg (rotate cfg L t now ip).2 w now' ip').1
        = Except.error AuthError.tokenRevoked := by
  have hrot : rotate cfg L t now ip
      = (Except.error AuthError.tokenRevoked, revokeChain L.nextValue L t) := by
    unfold rotate
    simp only [hfind, hrev, if_true]
  refine ⟨by rw [hrot], ?_⟩
  intro w hreach
  have hrevoked : ∀ r', findRefreshToken (revokeChain L.nextValue L t) w = some r' →
      r'.revoked = true :=
    revokeChain_revokes L.nextValue L t w hWF hreach (by omega)
  constructor
  · rw [hrot]
    exact hrevoked
  · intro now' ip'
    rw [hrot]
    have hsome : (findRefreshToken L w).isSome = true :=
      reaches_stored hWF hreach (by rw [hfind]; rfl)
    have hsome2 : (findRefreshToken (revokeChain L.nextValue L t) w).isSome = true := by
      rw [revokeChain_find_isSome]
      exact hsome
    obtain ⟨r', hr'⟩ := Option.isSome_iff_exists.mp hsome2
    have hrev' : r'.revoked = true := hrevoked r' hr'
    unfold rotate
    simp only [hr', hrev', if_true]

/-- C1 witness: replaying the revoked head both fails with TokenRevoked
and poisons the live successor, whose later rotation is also rejected
with TokenRevoked. -/
theorem c1_witness :
    (rotate defaultConfig chainLedger 0 5 "i").1 = Except.error AuthError.tokenRevoked ∧
    (rotate defaultConfig (rotate defaultConfig chainLedger 0 5 "i").2 1 7 "j").1
      = Except.error AuthError.tokenRevoked := by
  have h := c1_theorem defaultConfig chainLedger 0 5 "i" chainHead
    (by decide) (by decide) (by decide)
  refine ⟨h.1, ?_⟩
  have h2 := h.2 1 (Reaches.step chainHead (by decide) (by decide) (Reaches.refl 1))
  exact h2.2 7 "j"

/-- When stored token values are distinct, looking a stored record up
by its own value returns that record. -/
theorem find?_value_self {l : List RefreshTokenRec}
    (hnd : (l.map (fun r => r.value)).Nodup) {rt : RefreshTokenRec} (hmem : rt ∈ l) :
    l.find? (fun r => r.value == rt.value) = some rt := by
  induction l with
  | nil => cases hmem
  | cons a tl ih =>
      simp only [List.map_cons, List.nodup_cons] at hnd
      rcases List.mem_cons.mp hmem with heq | hmem2
      · subst heq
        simp [List.find?_cons]
      · have hne : a.value ≠ rt.value := by
          intro hcontra
          exact hnd.1 (hcontra ▸ List.mem_map_of_mem (fun r => r.value) hmem2)
        have hb : (a.value == rt.value) = false := by simpa using hne
        simp [List.find?_cons, hb, ih hnd.2 hmem2]

/-- After revoking every refresh token of an account, rotating any of
the account's previously stored tokens fails with TokenRevoked. -/
theorem rotate_after_revokeAll (cfg : AuthConfig) (L : RefreshLedger) (uid : Nat)
    (rt : RefreshTokenRec) (hnd : (L.tokens.map (fun r => r.value)).Nodup)
    (hmem : rt ∈ L.tokens) (huid : rt.userId = uid) (now : Nat) (ip : String) :
    (rotate cfg (revokeAllForAccount L uid) rt.value now ip).1
      = Except.error AuthError.tokenRevoked := by
  have hfind : findRefreshToken (revokeAllForAccount L uid) rt.value
      = some { rt with revoked := true, reason := some RevokeReason.explicitRevoke } := by
    unfold findRefreshToken revokeAllForAccount
    rw [find?_value_map L.tokens _
      (fun r => by by_cases h : (r.userId == uid) = true <;> simp [h]) rt.value]
    rw [find?_value_self hnd hmem]
    have hb : (rt.userId == uid) = true := by simpa using huid
    simp only [Option.map_some']
    rw [if_pos hb]
  unfold rotate
  simp [hfind]

/-- After invalidating every reset token of an account, all stored
reset tokens of that account are consumed. -/
theorem consumed_after_invalidateAll (L : ResetLedger) (uid : Nat) :
    ∀ rs ∈ (invalidateAllResetFor L uid).tokens, rs.userId = uid → rs.consumed = true := by
  intro rs hmem huid
  obtain ⟨r0, hr0, heq⟩ := List.mem_map.mp hmem
  subst heq
  by_cases hc : (r0.userId == uid) = true
  · simp [hc]
  · have hb : (r0.userId == uid) = false := by simpa using hc
    simp only [hb, Bool.false_eq_true, if_false] at huid ⊢
    exact absurd huid (ne_of_beq_false hb)

/-- C7: a successful password reset, and likewise a successful password
change, invalidates every session of the owning account: every refresh
token stored before the operation fails with TokenRevoked when
presented for rotation afterwards, and every stored reset token of the
account is consumed afterwards. -/
theorem c7_theorem (cfg : AuthConfig) (sys : AuthSys) (tokenValue : Nat)
    (newPwd curPwd : String) (now uid : Nat)
    (hnd : (sys.refresh.tokens.map (fun r => r.value)).Nodup) :
    (∀ r, findResetToken sys.reset tokenValue = some r →
      (resetPassword sys tokenValue newPwd now).1 = Except.ok () →
      (∀ rt ∈ sys.refresh.tokens, rt.userId = r.userId → ∀ now' ip',
        (rotate cfg (resetPassword sys tokenValue newPwd now).2.refresh rt.value now' ip').1
          = Except.error AuthError.tokenRevoked) ∧
      (∀ rs ∈ (resetPassword sys tokenValue newPwd now).2.reset.tokens,
        rs.userId = r.userId → rs.consumed = true)) ∧
    ((changePassword sys uid curPwd newPwd).1 = Except.ok () →
      (∀ rt ∈ sys.refresh.tokens, rt.userId = uid → ∀ now' ip',
        (rotate cfg (changePassword sys uid curPwd newPwd).2.refresh rt.value now' ip').1
          = Except.error AuthError.tokenRevoked) ∧
      (∀ rs ∈ (changePassword sys uid curPwd newPwd).2.reset.tokens,
        rs.userId = uid → rs.consumed = true)) := by
  constructor
  · intro r hfr hok
    by_cases hc1 : r.consumed = true
    · exfalso
      have hbad : (resetPassword sys tokenValue newPwd now).1
          = Except.error AuthError.tokenAlreadyUsed := by
        unfold resetPassword consume
        simp [hfr, hc1]
      rw [hbad] at hok
      cases hok
    · by_cases hc2 : r.expiresAt ≤ now
      · exfalso
        have hbad : (resetPassword sys tokenValue newPwd now).1
            = Except.error AuthError.tokenExpired := by
          unfold resetPassword consume
          simp [hfr, hc1, hc2]
        rw [hbad] at hok
        cases hok
      · have hsys : resetPassword sys tokenValue newPwd now =
            (Except.ok (),
              { users := updatePassword sys.users r.userId (hashPassword newPwd)
                refresh := revokeAllForAccount sys.refresh r.userId
                reset := invalidateAllResetFor
                  { sys.reset with tokens := sys.reset.tokens.map (fun t =>
                      if t.value == tokenValue then { t with consumed := true } else t) }
                  r.userId }) := by
          unfold resetPassword consume
          simp [hfr, hc1, hc2]
        rw [hsys]
        constructor
        · intro rt hmem huid now' ip'
          exact rotate_after_revokeAll cfg sys.refresh r.userId rt hnd hmem huid now' ip'
        · intro rs hmem huid
          exact consumed_after_invalidateAll _ r.userId rs hmem huid
  · intro hok
    cases hfu : findById sys.users uid with
    | none =>
        exfalso
        have hbad : (changePassword sys uid curPwd newPwd).1
            = Except.error AuthError.invalidCredentials := by
          unfold changePassword
          simp [hfu]
        rw [hbad] at hok
        cases hok
    | some u =>
        by_cases hcp : compareHash u.password curPwd = true
        · have hsys : changePassword sys uid curPwd newPwd =
              (Except.ok (),
                { users := updatePassword sys.users uid (hashPassword newPwd)
                  refresh := revokeAllForAccount sys.refresh uid
                  reset := invalidateAllResetFor sys.reset uid }) := by
            unfold changePassword
            simp [hfu, hcp]
          rw [hsys]
          constructor
          · intro rt hmem huid now' ip'
            exact rotate_after_revokeAll cfg sys.refresh uid rt hnd hmem huid now' ip'
          · intro rs hmem huid
            exact consumed_after_invalidateAll _ uid rs hmem huid
        · exfalso
          have hcpf : compareHash u.password curPwd = false := by simpa using hcp
          have hbad : (changePassword sys uid curPwd newPwd).1
              = Except.error AuthError.invalidCredentials := by
            unfold changePassword
            simp [hfu, hcpf]
          rw [hbad] at hok
          cases hok

/-- C7 witness: in the concrete one-account system, after a reset via
the pending token and after a password change, rotating the account's
pre-existing refresh token fails with TokenRevoked. -/
theorem c7_witness :
    (rotate defaultConfig (resetPassword c7Sys 0 "new" 5).2.refresh 0 9 "k").1
      = Except.error AuthError.tokenRevoked ∧
    (rotate defaultConfig (changePassword c7Sys 1 "pw" "new2").2.refresh 0 9 "k").1
      = Except.error AuthError.tokenRevoked := by
  have h := c7_theorem defaultConfig c7Sys 0 "new" "pw" 5 1 (by decide)
  constructor
  · exact (h.1 resetFixtureToken (by decide) (by decide)).1 refreshFixtureToken
      (by decide) (by decide) 9 "k"
  · exact (h.2 (by decide)).1 refreshFixtureToken (by decide) (by decide) 9 "k"

end HG
